import Mathlib

/-!
Verification of the process-cluster orchestration and background diagnostic
collection core of the go-benchmarks repository, against its specification.

The embedding covers:
* the diagnostics poller of sweet/benchmarks/internal/server/server.go
  (CollectDiagnostic, PollDiagnostic and its stop handle);
* the CockroachDB driver of sweet/benchmarks/cockroachdb/main.go
  (cluster topology, launch, shutdown, the run sequence, and the
  diagnostics section of the RunBenchmark closure).
-/

namespace SweetBench

/-! ## Diagnostics poller (server.go)

A fetch is one call of CollectDiagnostic.  File contents and response bodies
are modelled as lists of bytes (Nat).  The outcome of one call is decided by
the environment (filesystem and HTTP endpoint), so it is an oracle value:

* createFail   : os.Create(outputPath) fails; the file is untouched and
                 (0, err) is returned.
* getFail      : os.Create succeeded (truncating the file to empty) but
                 http.Get failed; (0, err) is returned.
* copyFail p   : io.Copy failed after writing the partial data p; the code
                 returns (0, err), discarding the partial count.
* copyDataFail b : the body b was fully copied but the trailing
                 driver.CopyDiagnosticData call failed; (len b, err) is
                 returned.
* success b    : everything succeeded; (len b, nil) is returned.
-/

inductive FetchOutcome where
  | createFail : FetchOutcome
  | getFail : FetchOutcome
  | copyFail (partBytes : List Nat) : FetchOutcome
  | copyDataFail (body : List Nat) : FetchOutcome
  | success (body : List Nat) : FetchOutcome
deriving DecidableEq

/-- Result of one CollectDiagnostic call: the new contents of the output
file, the returned byte count n, and whether the returned error was nil. -/
structure CollectResult where
  newFile : List Nat
  ret : Nat
  ok : Bool
deriving DecidableEq

/-- CollectDiagnostic (server.go lines 18-34).  Key point, taken directly
from the source: the file is opened with os.Create, which TRUNCATES it, so
on every call the previous contents are discarded, never appended to. -/
def collectDiagnostic (file : List Nat) : FetchOutcome → CollectResult
  | FetchOutcome.createFail => { newFile := file, ret := 0, ok := false }
  | FetchOutcome.getFail => { newFile := [], ret := 0, ok := false }
  | FetchOutcome.copyFail p => { newFile := p, ret := 0, ok := false }
  | FetchOutcome.copyDataFail b => { newFile := b, ret := b.length, ok := false }
  | FetchOutcome.success b => { newFile := b, ret := b.length, ok := true }

/-- State of one PollDiagnostic session: the uint64 byte counter `size`,
the contents of the output file, the number of error lines printed to
stderr, and whether the polling goroutine has returned. -/
structure PollState where
  size : Nat
  file : List Nat
  logs : Nat
  stopped : Bool
deriving DecidableEq

def pollInit : PollState := { size := 0, file := [], logs := 0, stopped := false }

/-- One loop iteration of the PollDiagnostic goroutine (server.go lines
56-71).  The event is what the loop observes at its top: `none` means the
select saw the closed stop channel (after close(stopc) the receive is always
ready, so the default branch cannot be taken); `some o` means the select
took the default branch and a fetch with outcome `o` ran.  On a fetch error
the goroutine logs to stderr and returns; on success it adds the returned
count to `size` with uint64 wraparound.  A goroutine that has returned takes
no further steps. -/
def pollStep (st : PollState) (ev : Option FetchOutcome) : PollState :=
  if st.stopped then st
  else
    match ev with
    | none => { st with stopped := true }
    | some o =>
      if (collectDiagnostic st.file o).ok then
        { st with size := (st.size + (collectDiagnostic st.file o).ret) % 2 ^ 64,
                  file := (collectDiagnostic st.file o).newFile }
      else
        { st with file := (collectDiagnostic st.file o).newFile,
                  logs := st.logs + 1, stopped := true }

/-- A complete execution of one session on which the stop handle is called
exactly once: the scheduler lets `fetches` be the outcomes offered to the
successive loop iterations that run before the loop top observes the closed
stop channel.  (If a fetch fails first, the loop exits early and the
remaining offered outcomes are never used.)  The state returned is the state
at the moment the stop handle's wg.Wait() returns. -/
def pollRun (fetches : List FetchOutcome) : PollState :=
  (fetches.map some ++ [none]).foldl pollStep pollInit

/-- Whether CollectDiagnostic returns a nil error for this outcome. -/
def fetchOk : FetchOutcome → Bool
  | FetchOutcome.success _ => true
  | _ => false

/-- Bytes transferred by a successful fetch. -/
def fetchBytes : FetchOutcome → Nat
  | FetchOutcome.success b => b.length
  | FetchOutcome.copyDataFail b => b.length
  | _ => 0

/-- Modelled from the spec: the sum of the bytes transferred by all
successful fetches of the session, i.e. by the fetches up to the first
failing one (a failure ends the session, so later offered outcomes never
run). -/
def successBytes : List FetchOutcome → Nat
  | [] => 0
  | o :: rest => if fetchOk o then fetchBytes o + successBytes rest else 0

/-- A Go channel, reduced to what close() needs: whether it is closed.
Closing an already-closed channel panics, modelled as `none`. -/
structure GoChannel where
  closed : Bool
deriving DecidableEq

def closeChan (c : GoChannel) : Option GoChannel :=
  if c.closed then none else some { closed := true }

/-- The stop handle returned by PollDiagnostic (server.go lines 72-77):
close(stopc), wg.Wait(), return size.  Its result also carries the channel
state it leaves behind; `none` is a panic from closing a closed channel. -/
def stopHandle (c : GoChannel) (fetches : List FetchOutcome) : Option (GoChannel × Nat) :=
  (closeChan c).map (fun c2 => (c2, (pollRun fetches).size))

/-! ### Basic lemmas about the poller -/

theorem collect_ok_eq (file : List Nat) (o : FetchOutcome) :
    (collectDiagnostic file o).ok = fetchOk o := by
  cases o <;> rfl

theorem collect_ret_of_ok (file : List Nat) (o : FetchOutcome) (h : fetchOk o = true) :
    (collectDiagnostic file o).ret = fetchBytes o := by
  cases o <;> simp_all [collectDiagnostic, fetchBytes, fetchOk]

theorem pollStep_stopped (st : PollState) (h : st.stopped = true)
    (ev : Option FetchOutcome) : pollStep st ev = st := by
  simp [pollStep, h]

theorem foldl_pollStep_stopped (evs : List (Option FetchOutcome)) (st : PollState)
    (h : st.stopped = true) : evs.foldl pollStep st = st := by
  induction evs with
  | nil => rfl
  | cons e rest ih => simp [List.foldl_cons, pollStep_stopped st h e, ih]

theorem pollRun_go (fs : List FetchOutcome) (st : PollState)
    (h : st.stopped = false) (h2 : st.size < 2 ^ 64) :
    ((fs.map some ++ [none]).foldl pollStep st).stopped = true ∧
    ((fs.map some ++ [none]).foldl pollStep st).size
      = (st.size + successBytes fs) % 2 ^ 64 := by
  induction fs generalizing st with
  | nil =>
    simp only [List.map_nil, List.nil_append, List.foldl_cons, List.foldl_nil]
    constructor
    · simp [pollStep, h]
    · simp only [pollStep, h, Bool.false_eq_true, if_false, successBytes]
      omega
  | cons o rest ih =>
    simp only [List.map_cons, List.cons_append, List.foldl_cons]
    rcases hok : fetchOk o with hf | ht
    · -- the fetch fails: the goroutine logs and returns
      have hstep : pollStep st (some o)
          = { st with file := (collectDiagnostic st.file o).newFile,
                      logs := st.logs + 1, stopped := true } := by
        simp [pollStep, h, collect_ok_eq, hok]
      rw [hstep, foldl_pollStep_stopped]
      · constructor
        · rfl
        · simp only [successBytes, hok, Bool.false_eq_true, if_false]
          omega
      · rfl
    · -- the fetch succeeds: accumulate and continue
      have hstep : pollStep st (some o)
          = { st with size := (st.size + (collectDiagnostic st.file o).ret) % 2 ^ 64,
                      file := (collectDiagnostic st.file o).newFile } := by
        simp [pollStep, h, collect_ok_eq, hok]
      rw [hstep]
      have hlt : (st.size + (collectDiagnostic st.file o).ret) % 2 ^ 64 < 2 ^ 64 :=
        Nat.mod_lt _ (by positivity)
      obtain ⟨hstop, hsize⟩ := ih { st with
        size := (st.size + (collectDiagnostic st.file o).ret) % 2 ^ 64,
        file := (collectDiagnostic st.file o).newFile } h hlt
      refine ⟨hstop, ?_⟩
      rw [hsize]
      simp only [successBytes, hok, if_true]
      rw [collect_ret_of_ok st.file o hok, Nat.mod_add_mod, Nat.add_assoc]

theorem pollStep_fail (st : PollState) (o : FetchOutcome) (h : st.stopped = false)
    (ho : fetchOk o = false) :
    pollStep st (some o)
      = { st with file := (collectDiagnostic st.file o).newFile,
                  logs := st.logs + 1, stopped := true } := by
  simp [pollStep, h, collect_ok_eq, ho]

theorem pollStep_fail_stopped (st : PollState) (o : FetchOutcome)
    (ho : fetchOk o = false) : (pollStep st (some o)).stopped = true := by
  rcases hst : st.stopped with hf | ht
  · rw [pollStep_fail st o hst ho]
  · rw [pollStep_stopped st hst]
    exact hst

theorem pollRun_allOk_go (fs : List FetchOutcome) (st : PollState)
    (h : st.stopped = false) (h2 : st.size < 2 ^ 64)
    (hok : ∀ o ∈ fs, fetchOk o = true) :
    ((fs.map some).foldl pollStep st).stopped = false ∧
    ((fs.map some).foldl pollStep st).logs = st.logs ∧
    ((fs.map some).foldl pollStep st).size = (st.size + successBytes fs) % 2 ^ 64 := by
  induction fs generalizing st with
  | nil =>
    simp only [List.map_nil, List.foldl_nil, successBytes]
    exact ⟨h, by simp, by omega⟩
  | cons o rest ih =>
    have hoko : fetchOk o = true := hok o (List.mem_cons_self o rest)
    have hstep : pollStep st (some o)
        = { st with size := (st.size + (collectDiagnostic st.file o).ret) % 2 ^ 64,
                    file := (collectDiagnostic st.file o).newFile } := by
      simp [pollStep, h, collect_ok_eq, hoko]
    simp only [List.map_cons, List.foldl_cons, hstep]
    have hlt : (st.size + (collectDiagnostic st.file o).ret) % 2 ^ 64 < 2 ^ 64 :=
      Nat.mod_lt _ (by positivity)
    obtain ⟨h1, h2a, h3⟩ := ih { st with
        size := (st.size + (collectDiagnostic st.file o).ret) % 2 ^ 64,
        file := (collectDiagnostic st.file o).newFile } h hlt
      (fun p hp => hok p (List.mem_cons_of_mem o hp))
    refine ⟨h1, h2a, ?_⟩
    rw [h3]
    simp only [successBytes, hoko, if_true]
    rw [collect_ret_of_ok st.file o hoko, Nat.mod_add_mod, Nat.add_assoc]

theorem pollRun_file_go (bs : List (List Nat)) (st : PollState) (h : st.stopped = false) :
    ((((bs.map FetchOutcome.success).map some ++ [none]).foldl pollStep st).file)
      = bs.getLastD st.file := by
  induction bs generalizing st with
  | nil =>
    simp only [List.map_nil, List.nil_append, List.foldl_cons, List.foldl_nil,
      List.getLastD_nil]
    simp [pollStep, h]
  | cons b rest ih =>
    have hstep : pollStep st (some (FetchOutcome.success b))
        = { st with size := (st.size + b.length) % 2 ^ 64, file := b } := by
      simp [pollStep, h, collectDiagnostic]
    simp only [List.map_cons, List.cons_append, List.foldl_cons, hstep]
    rw [ih { st with size := (st.size + b.length) % 2 ^ 64, file := b } h]
    rw [List.getLastD_cons]

theorem successBytes_map_success (bs : List (List Nat)) :
    successBytes (bs.map FetchOutcome.success) = (bs.map List.length).sum := by
  induction bs with
  | nil => rfl
  | cons b rest ih => simp [successBytes, fetchOk, fetchBytes, ih]

/-! ### Claim theorems about the poller -/

/-- C1: calling the stop handle of a PollDiagnostic session exactly once
terminates the polling loop and blocks until the goroutine has exited (the
returned state always has stopped = true, so any in-flight fetch completed
first); it returns the cumulative byte count, which is the uint64 sum of the
bytes transferred by all successful fetches (equal to the exact sum whenever
that sum fits in uint64, and nonnegative because it is a Nat); and once the
goroutine has exited no further step changes the session state, in
particular no further write to the output file occurs. -/
theorem c1_poll_stop_correct (fetches : List FetchOutcome) :
    (pollRun fetches).stopped = true
  ∧ (pollRun fetches).size = successBytes fetches % 2 ^ 64
  ∧ (successBytes fetches < 2 ^ 64 → (pollRun fetches).size = successBytes fetches)
  ∧ (∀ ev, pollStep (pollRun fetches) ev = pollRun fetches) := by
  obtain ⟨h1, h2⟩ := pollRun_go fetches pollInit rfl (by norm_num [pollInit])
  have hsize : (pollRun fetches).size = successBytes fetches % 2 ^ 64 := by
    simpa [pollRun, pollInit] using h2
  exact ⟨h1, hsize, fun hlt => by rw [hsize]; exact Nat.mod_eq_of_lt hlt,
    fun ev => pollStep_stopped _ h1 ev⟩

/-- Witness for C1 at a concrete session: one successful 3-byte fetch. -/
theorem c1_poll_stop_correct_witness :
    (pollRun [FetchOutcome.success [7, 7, 7]]).stopped = true
  ∧ (pollRun [FetchOutcome.success [7, 7, 7]]).size
      = successBytes [FetchOutcome.success [7, 7, 7]] % 2 ^ 64
  ∧ (successBytes [FetchOutcome.success [7, 7, 7]] < 2 ^ 64 →
      (pollRun [FetchOutcome.success [7, 7, 7]]).size
        = successBytes [FetchOutcome.success [7, 7, 7]])
  ∧ (∀ ev, pollStep (pollRun [FetchOutcome.success [7, 7, 7]]) ev
      = pollRun [FetchOutcome.success [7, 7, 7]]) :=
  c1_poll_stop_correct [FetchOutcome.success [7, 7, 7]]

def c5Fetches : List FetchOutcome := [FetchOutcome.success [0], FetchOutcome.success [0]]

/-- C5 counterexample: after two successful fetches of one byte each, the
output file does NOT contain the two-byte concatenation of the bodies
(CollectDiagnostic opens the file with os.Create, which truncates, so it
holds only the last body), and the accumulated byte count (2) differs from
the size of the data present in the file (1). -/
theorem c5_counterexample :
    ¬ ((pollRun c5Fetches).file = [0, 0]
        ∧ (pollRun c5Fetches).size = (pollRun c5Fetches).file.length) := by
  decide

/-- C5 amended: each iteration truncates and rewrites the output file, so
after k successful fetches the file contains exactly the k-th (last)
response body, while the session's accumulated byte count is the uint64 sum
of the sizes of all k bodies. -/
theorem c5_amended_overwrite (bs : List (List Nat)) :
    (pollRun (bs.map FetchOutcome.success)).file = bs.getLastD []
  ∧ (pollRun (bs.map FetchOutcome.success)).size = (bs.map List.length).sum % 2 ^ 64 := by
  constructor
  · simpa [pollRun, pollInit] using pollRun_file_go bs pollInit rfl
  · obtain ⟨h1, h2⟩ := pollRun_go (bs.map FetchOutcome.success) pollInit rfl
      (by norm_num [pollInit])
    rw [pollRun, h2]
    simp [pollInit, successBytes_map_success]

/-- C6: on any transport or file I/O error during a fetch, the session logs
the error to the error stream and exits its loop: the outcomes offered after
the failing fetch are never consumed (no retry), the stop handle still just
returns the byte count (the error is not propagated: the handle has no error
result), and a session whose very first fetch fails terminates with one
logged error and the byte count accumulated so far (0 for an unreachable
endpoint). -/
theorem c6_error_terminates (pre : List FetchOutcome) (o : FetchOutcome)
    (rest : List FetchOutcome) (h : fetchOk o = false) :
    pollRun (pre ++ o :: rest) = pollRun (pre ++ [o])
  ∧ ((∀ p ∈ pre, fetchOk p = true) →
      (pollRun (pre ++ [o])).stopped = true
    ∧ (pollRun (pre ++ [o])).logs = 1
    ∧ (pollRun (pre ++ [o])).size = successBytes pre % 2 ^ 64) := by
  constructor
  · have hsplit1 : (pre ++ o :: rest).map (some : FetchOutcome → Option FetchOutcome)
        ++ [none] = pre.map some ++ (some o :: (rest.map some ++ [none])) := by
      simp
    have hsplit2 : (pre ++ [o]).map (some : FetchOutcome → Option FetchOutcome)
        ++ [none] = pre.map some ++ (some o :: [none]) := by
      simp
    rw [pollRun, pollRun, hsplit1, hsplit2, List.foldl_append, List.foldl_append,
      List.foldl_cons, List.foldl_cons]
    have hstop : (pollStep ((pre.map some).foldl pollStep pollInit) (some o)).stopped
        = true := pollStep_fail_stopped _ o h
    rw [foldl_pollStep_stopped _ _ hstop, foldl_pollStep_stopped _ _ hstop]
  · intro hok
    obtain ⟨h1, h2, h3⟩ := pollRun_allOk_go pre pollInit rfl (by norm_num [pollInit]) hok
    have hsplit2 : (pre ++ [o]).map (some : FetchOutcome → Option FetchOutcome)
        ++ [none] = pre.map some ++ (some o :: [none]) := by
      simp
    rw [pollRun, hsplit2, List.foldl_append, List.foldl_cons]
    rw [pollStep_fail _ o h1 h]
    rw [foldl_pollStep_stopped _ _ rfl]
    refine ⟨rfl, by rw [h2]; rfl, by rw [h3]; simp [pollInit]⟩

/-- Witness for C6: a session whose endpoint is unreachable (http.Get fails
on the first fetch) terminates at once with byte count 0 and one logged
error. -/
theorem c6_error_terminates_witness :
    (pollRun ([] ++ [FetchOutcome.getFail])).stopped = true
  ∧ (pollRun ([] ++ [FetchOutcome.getFail])).logs = 1
  ∧ (pollRun ([] ++ [FetchOutcome.getFail])).size
      = successBytes [] % 2 ^ 64 :=
  (c6_error_terminates [] FetchOutcome.getFail [] (by decide)).2 (by simp)

/-- C10: the stop handle may be invoked at most once.  The first call closes
the session's cancellation channel and returns the byte count; a second call
finds the channel already closed, and close of a closed channel panics
(modelled as none). -/
theorem c10_stop_twice_panics (fetches : List FetchOutcome) :
    stopHandle { closed := false } fetches
      = some ({ closed := true }, (pollRun fetches).size)
  ∧ stopHandle { closed := true } fetches = none := by
  constructor <;> rfl

/-! ## Cluster topology (cockroachdb/main.go)

Addresses are host:port with a single configured host shared by all
instances, so an instance is identified by its two ports.  basePort matches
the constant in main.go. -/

def basePort : Nat := 26257

structure CrdbInstance where
  sqlPort : Nat
  httpPort : Nat
deriving DecidableEq

/-- The instance records built by the first loop of launchCockroachCluster
(main.go lines 77-83): instance i (0-based) gets SQL (data) port
basePort + 2i and HTTP (control) port basePort + 2i + 1. -/
def mkInstances (nodeCount : Nat) : List CrdbInstance :=
  (List.range nodeCount).map
    (fun i => { sqlPort := basePort + 2 * i, httpPort := basePort + 2 * i + 1 })

/-- The single instance built by launchSingleNodeCluster (lines 129-157). -/
def launchSingleNode : List CrdbInstance :=
  [{ sqlPort := basePort, httpPort := basePort + 1 }]

/-- The instances other than instance n, in order (line 86-87:
instances[:n] ++ instances[n+1:]). -/
def allOtherInstances (insts : List CrdbInstance) (n : Nat) : List CrdbInstance :=
  insts.take n ++ insts.drop (n + 1)

/-- The --join list handed to instance n: the SQL (data) addresses of all
other instances (lines 86-88). -/
def joinPorts (insts : List CrdbInstance) (n : Nat) : List Nat :=
  (allOtherInstances insts n).map CrdbInstance.sqlPort

/-- run()'s dispatch (lines 400-404) combined with the launch functions:
one node goes through launchSingleNodeCluster, which issues no cluster-init
command; any other count goes through launchCockroachCluster, which issues
one init command against instances[0]'s SQL port (lines 111-117).  The
second component is the SQL port targeted by the init command, none if no
init is issued. -/
def launchCluster (nodeCount : Nat) : List CrdbInstance × Option Nat :=
  if nodeCount = 1 then (launchSingleNode, none)
  else (mkInstances nodeCount, (mkInstances nodeCount).head?.map CrdbInstance.sqlPort)

def clusterTopo (nodeCount : Nat) : List CrdbInstance :=
  (launchCluster nodeCount).fst

/-! ## Launch-failure flow (C3) -/

/-- The second loop of launchCockroachCluster / the Start call of
launchSingleNodeCluster: processes are started in instance order; the first
Start failure makes the function return (nil, err) at once.  The result is
(returned instance list or none on error, instances whose process was
actually started).  `spawnOk i` is the environment's verdict on starting
instance i's process. -/
def spawnInstances (spawnOk : Nat → Bool) : List Nat → Option (List Nat) × List Nat
  | [] => (some [], [])
  | i :: rest =>
    if spawnOk i then
      match spawnInstances spawnOk rest with
      | (some all, started) => (some (i :: all), i :: started)
      | (none, started) => (none, i :: started)
    else (none, [])

structure LaunchPhaseOutcome where
  errored : Bool
  started : List Nat
  shutdownAttempted : List Nat
deriving DecidableEq

/-- run() (lines 397-429) up to and including the teardown obligation: the
launch is attempted; if it returns an error, run() returns at line 407,
BEFORE the deferred cleanup of lines 415-429 is installed, so no shutdown is
attempted; only when the launch succeeds does the defer get installed, and
it then shuts down every returned instance.  `initOk` is the verdict on
starting the init command (multi-node only, lines 111-125; a failure there
also returns nil instances). -/
def runLaunchPhase (nodeCount : Nat) (spawnOk : Nat → Bool) (initOk : Bool) :
    LaunchPhaseOutcome :=
  match spawnInstances spawnOk (List.range nodeCount) with
  | (some insts, started) =>
    if nodeCount = 1 then
      { errored := false, started := started, shutdownAttempted := insts }
    else if initOk then
      { errored := false, started := started, shutdownAttempted := insts }
    else
      { errored := true, started := started, shutdownAttempted := [] }
  | (none, started) =>
    { errored := true, started := started, shutdownAttempted := [] }

/-! ## Instance shutdown (C7)

cockroachdbInstance.shutdown (main.go lines 185-196) runs
Process.Signal(os.Interrupt) then Process.Wait() whenever cmd != nil; the
nil check is the only guard.  Go process semantics, stated for the record:
Signal on a process that has already been reaped by Wait returns the error
"os: process already finished" (ErrProcessDone); Signal on an exited but
not-yet-reaped process succeeds; Signal through a nil Process pointer (Start
was never called successfully) dereferences nil and panics. -/

inductive ProcState where
  | noCmd : ProcState
  | startFailed : ProcState
  | running : ProcState
  | exitedUnreaped : ProcState
  | exitedReaped : ProcState
deriving DecidableEq

inductive ShutdownOutcome where
  | ok (after : ProcState) : ShutdownOutcome
  | errProcessDone (after : ProcState) : ShutdownOutcome
  | nilPanic : ShutdownOutcome
deriving DecidableEq

def shutdown : ProcState → ShutdownOutcome
  | ProcState.noCmd => ShutdownOutcome.ok ProcState.noCmd
  | ProcState.startFailed => ShutdownOutcome.nilPanic
  | ProcState.running => ShutdownOutcome.ok ProcState.exitedReaped
  | ProcState.exitedUnreaped => ShutdownOutcome.ok ProcState.exitedReaped
  | ProcState.exitedReaped => ShutdownOutcome.errProcessDone ProcState.exitedReaped

/-! ## run()'s step sequence (C9) -/

inductive RunStep where
  | spawnProcesses : RunStep
  | fixedSleep : RunStep
  | readinessProbe : RunStep
  | clusterInit : RunStep
  | runWorkload : RunStep
  | teardownAll : RunStep
deriving DecidableEq

/-- The sequence of externally visible steps run() performs, in order, read
off main.go: nodeCount = 1 → launchSingleNodeCluster (spawn), then the
5-second time.Sleep(waitTimeAfterStart) at line 412, then the benchmark,
then the deferred teardown; otherwise launchCockroachCluster (spawn, a
20-second time.Sleep at line 110, the init command), then the same tail.
The ping readiness probe (lines 159-175) is never invoked by run() or by
anything else, so readinessProbe never occurs. -/
def runSteps (nodeCount : Nat) : List RunStep :=
  if nodeCount = 1 then
    [RunStep.spawnProcesses, RunStep.fixedSleep, RunStep.runWorkload,
     RunStep.teardownAll]
  else
    [RunStep.spawnProcesses, RunStep.fixedSleep, RunStep.clusterInit,
     RunStep.fixedSleep, RunStep.runWorkload, RunStep.teardownAll]

/-! ## Diagnostics in the RunBenchmark closure (C4, C8)

Models lines 441-507 of main.go.  The driver package is not part of the
sources at hand; following the spec, driver.RunBenchmark aggregates into the
run's result exactly the measurements the closure hands to d.Report plus the
error the closure returns ("it exposes numeric named measurements back to a
reporting sink"), and driver.CopyDiagnosticData is a file-copy utility with
no access to the reporting sink.  Report keys are abstracted: traceBytes is
the "trace-bytes" measurement; workloadMetric i stands for the read/write
metrics runBenchmark extracts from workload output on success. -/

structure DiagEnabled where
  cpuProfile : Bool
  execTrace : Bool
  memProfile : Bool
deriving DecidableEq

inductive Finisher where
  | cpuStop (bytes : Nat) : Finisher
  | traceStop (bytes : Nat) : Finisher
  | memCollect (bytes : Nat) : Finisher
deriving DecidableEq

/-- The finishers list built by the closure, in source order: for each
enabled kind, one finisher per instance.  cpuStop is the PollDiagnostic stop
handle appended bare (line 446); traceStop is the wrapper that adds the stop
handle's result to the atomic sum (lines 457-467); memCollect is the
one-shot CollectDiagnostic wrapper (lines 476-487).  The bytes argument is
what the underlying stop/collect yields for that instance. -/
def mkFinishers (en : DiagEnabled) (numInsts : Nat)
    (cpuBytes traceBytes memBytes : Nat → Nat) : List Finisher :=
  (if en.cpuProfile then
    (List.range numInsts).map (fun i => Finisher.cpuStop (cpuBytes i))
  else [])
  ++ (if en.execTrace then
    (List.range numInsts).map (fun i => Finisher.traceStop (traceBytes i))
  else [])
  ++ (if en.memProfile then
    (List.range numInsts).map (fun i => Finisher.memCollect (memBytes i))
  else [])

/-- The value of the atomic sum after every finisher has run: only the
traceStop wrappers add to it. -/
def traceStopSum : List Finisher → Nat
  | [] => 0
  | Finisher.traceStop b :: rest => b + traceStopSum rest
  | Finisher.cpuStop _ :: rest => traceStopSum rest
  | Finisher.memCollect _ :: rest => traceStopSum rest

inductive ReportKey where
  | traceBytes : ReportKey
  | workloadMetric (idx : Nat) : ReportKey
deriving DecidableEq

structure ClosureOutcome where
  reports : List (ReportKey × Nat)
  finishersRun : Nat
  result : Option Nat
deriving DecidableEq

/-- The RunBenchmark closure (lines 441-507).  Defers run LIFO on return:
the stop-all defer registered at lines 492-503 calls every finisher on its
own goroutine and wg.Wait()s for all of them, then the trace-report defer
registered at lines 469-471 (present only when trace collection is enabled)
reports the atomic sum as trace-bytes.  The closure's return value is
runBenchmark's error: on success runBenchmark has already reported the
workload metrics, on failure it reports nothing.  Nothing anywhere reports
the cpuStop or memCollect byte values: they are discarded at line 499. -/
def runDiagClosure (en : DiagEnabled) (numInsts : Nat)
    (cpuBytes traceBytes memBytes : Nat → Nat)
    (workloadErr : Option Nat) (metricReports : List (ReportKey × Nat)) :
    ClosureOutcome :=
  { reports :=
      (match workloadErr with
        | none => metricReports
        | some _ => [])
      ++ (if en.execTrace then
            [(ReportKey.traceBytes,
              traceStopSum (mkFinishers en numInsts cpuBytes traceBytes memBytes))]
          else []),
    finishersRun := (mkFinishers en numInsts cpuBytes traceBytes memBytes).length,
    result := workloadErr }

/-! ### Topology lemmas -/

theorem clusterTopo_eq (N : Nat) (h : 1 ≤ N) : clusterTopo N = mkInstances N := by
  rcases Nat.eq_or_lt_of_le h with h1 | h2
  · rw [clusterTopo, launchCluster, if_pos h1.symm]
    rw [← h1]
    decide
  · have hne : N ≠ 1 := by omega
    rw [clusterTopo, launchCluster, if_neg hne]

theorem joinPorts_eq (N i : Nat) (hi : i < N) :
    joinPorts (mkInstances N) i
      = (List.range i).map (fun j => 26257 + 2 * j)
        ++ (List.range (N - (i + 1))).map (fun x => 26257 + 2 * (i + 1 + x)) := by
  rw [joinPorts, allOtherInstances, List.map_append]
  congr 1
  · rw [mkInstances, ← List.map_take, List.take_range,
      Nat.min_eq_left (Nat.le_of_lt hi), List.map_map]
    rfl
  · obtain ⟨k, rfl⟩ : ∃ k, N = (i + 1) + k := ⟨N - (i + 1), by omega⟩
    rw [mkInstances, ← List.map_drop, List.range_add,
      List.drop_left' (List.length_range (i + 1)), List.map_map, List.map_map,
      Nat.add_sub_cancel_left]
    rfl

/-! ### Claim theorems about the driver -/

/-- C2: for node count N with base port 26257, instance i gets data (SQL)
address port 26257 + 2i and control (HTTP) address port 26257 + 2i + 1 (all
instances share the configured host), the N (data, control) pairs are unique
and derived deterministically from N; N = 1 yields ports 26257/26258 with no
cluster-init command; for N > 1 the init command targets instance 0's data
port and each instance's join list holds exactly the data ports of the other
N - 1 instances and never its own. -/
theorem c2_cluster_topology (N : Nat) (hN : 1 ≤ N) :
    (clusterTopo N).length = N
  ∧ (∀ i, i < N → (clusterTopo N)[i]? =
      some { sqlPort := 26257 + 2 * i, httpPort := 26257 + 2 * i + 1 })
  ∧ ((clusterTopo N).map (fun inst => (inst.sqlPort, inst.httpPort))).Nodup
  ∧ (N = 1 → clusterTopo N = [{ sqlPort := 26257, httpPort := 26258 }]
      ∧ (launchCluster N).snd = none)
  ∧ (1 < N → (launchCluster N).snd = some 26257
      ∧ ∀ i, i < N →
          (joinPorts (clusterTopo N) i).length = N - 1
        ∧ (∀ j, j < N → j ≠ i → 26257 + 2 * j ∈ joinPorts (clusterTopo N) i)
        ∧ 26257 + 2 * i ∉ joinPorts (clusterTopo N) i) := by
  refine ⟨?_, ?_, ?_, ?_, ?_⟩
  · rw [clusterTopo_eq N hN, mkInstances]
    simp
  · intro i hi
    rw [clusterTopo_eq N hN, mkInstances, List.getElem?_map, List.getElem?_range hi]
    rfl
  · rw [clusterTopo_eq N hN, mkInstances, List.map_map]
    refine List.Nodup.map ?_ (List.nodup_range N)
    intro a b hab
    have hfst := congrArg Prod.fst hab
    simp only [Function.comp_apply] at hfst
    omega
  · intro h1
    subst h1
    exact ⟨rfl, rfl⟩
  · intro h2
    have hne : N ≠ 1 := by omega
    constructor
    · obtain ⟨k, rfl⟩ : ∃ k, N = k + 1 := ⟨N - 1, by omega⟩
      rw [launchCluster, if_neg hne]
      rw [mkInstances, List.range_succ_eq_map]
      rfl
    · intro i hi
      rw [clusterTopo_eq N hN]
      refine ⟨?_, ?_, ?_⟩
      · rw [joinPorts_eq N i hi]
        simp only [List.length_append, List.length_map, List.length_range]
        omega
      · intro j hj hji
        rw [joinPorts_eq N i hi]
        rcases Nat.lt_or_ge j i with hlt | hge
        · exact List.mem_append_left _
            (List.mem_map.mpr ⟨j, List.mem_range.mpr hlt, rfl⟩)
        · refine List.mem_append_right _
            (List.mem_map.mpr ⟨j - (i + 1), List.mem_range.mpr (by omega), by omega⟩)
      · intro hmem
        rw [joinPorts_eq N i hi] at hmem
        simp only [List.mem_append, List.mem_map, List.mem_range] at hmem
        rcases hmem with ⟨j, hj, hjE⟩ | ⟨x, hx, hxE⟩ <;> omega

/-- Witness for C2 at N = 3, the three-node benchmark configuration. -/
theorem c2_cluster_topology_witness :
    (clusterTopo 3).length = 3
  ∧ (∀ i, i < 3 → (clusterTopo 3)[i]? =
      some { sqlPort := 26257 + 2 * i, httpPort := 26257 + 2 * i + 1 })
  ∧ ((clusterTopo 3).map (fun inst => (inst.sqlPort, inst.httpPort))).Nodup
  ∧ (3 = 1 → clusterTopo 3 = [{ sqlPort := 26257, httpPort := 26258 }]
      ∧ (launchCluster 3).snd = none)
  ∧ (1 < 3 → (launchCluster 3).snd = some 26257
      ∧ ∀ i, i < 3 →
          (joinPorts (clusterTopo 3) i).length = 3 - 1
        ∧ (∀ j, j < 3 → j ≠ i → 26257 + 2 * j ∈ joinPorts (clusterTopo 3) i)
        ∧ 26257 + 2 * i ∉ joinPorts (clusterTopo 3) i) :=
  c2_cluster_topology 3 (by decide)

/-- C3 counterexample: with three nodes where instance 0's process starts
and instance 1's spawn fails, run() aborts with an error but attempts no
shutdown at all: the started instance 0 is leaked
(launchCockroachCluster returns nil on the spawn error, and the teardown
defer in run() is installed only after the launch error check). -/
theorem c3_counterexample :
    runLaunchPhase 3 (fun i => i == 0) true
      = { errored := true, started := [0], shutdownAttempted := [] } := by
  decide

/-- C3 amended: if spawning any single instance's process fails during
cluster launch, the run aborts with an error, but the instances that were
already started before the failure are NOT torn down: no shutdown is
attempted before the orchestration entry point returns. -/
theorem c3_amended_no_teardown (N : Nat) (spawnOk : Nat → Bool) (initOk : Bool)
    (h : (spawnInstances spawnOk (List.range N)).fst = none) :
    (runLaunchPhase N spawnOk initOk).errored = true
  ∧ (runLaunchPhase N spawnOk initOk).shutdownAttempted = []
  ∧ (runLaunchPhase N spawnOk initOk).started
      = (spawnInstances spawnOk (List.range N)).snd := by
  rcases hsp : spawnInstances spawnOk (List.range N) with ⟨res, started⟩
  rcases res with hnone | insts
  · rw [runLaunchPhase, hsp]
    exact ⟨rfl, rfl, rfl⟩
  · rw [hsp] at h
    exact absurd h (by simp)

/-- Witness for C3's amended statement, at the counterexample's input. -/
theorem c3_amended_no_teardown_witness :
    (runLaunchPhase 3 (fun i => i == 0) true).errored = true
  ∧ (runLaunchPhase 3 (fun i => i == 0) true).shutdownAttempted = []
  ∧ (runLaunchPhase 3 (fun i => i == 0) true).started
      = (spawnInstances (fun i => i == 0) (List.range 3)).snd :=
  c3_amended_no_teardown 3 (fun i => i == 0) true (by decide)

/-- C7: evaluation of shutdown on each process state.  An instance that was
never launched (cmd == nil) is a no-op success, and a still-running instance
is signalled with os.Interrupt and then waited on, as the claim says; but an
instance whose process has already exited and been reaped (exactly the state
a first shutdown call leaves behind) is NOT a no-op success: the cmd != nil
guard does not check liveness, Process.Signal returns the
"os: process already finished" error, and shutdown returns it — calling
shutdown twice errors, contradicting the claim and the code's own comment
"Only attempt to shut down the process if it's still running". -/
theorem c7_shutdown_evaluation :
    shutdown ProcState.noCmd = ShutdownOutcome.ok ProcState.noCmd
  ∧ shutdown ProcState.running = ShutdownOutcome.ok ProcState.exitedReaped
  ∧ shutdown ProcState.exitedUnreaped = ShutdownOutcome.ok ProcState.exitedReaped
  ∧ shutdown ProcState.exitedReaped
      = ShutdownOutcome.errProcessDone ProcState.exitedReaped := by
  decide

/-- C9 counterexample: in a three-node run, no readiness probe step occurs
anywhere in run()'s sequence — readiness is not detected by an active probe
(the ping helper is never invoked); only fixed sleeps precede the
workload. -/
theorem c9_counterexample :
    RunStep.readinessProbe ∉ runSteps 3 ∧ RunStep.readinessProbe ∉ runSteps 1 := by
  decide

/-- C9 amended: before control passes to the benchmark runner, no readiness
probe is issued at all: for every node count the run sequence contains fixed
sleeps and no readinessProbe step, and the workload step is preceded by at
least one fixed sleep (the driver relies on the workload's own retrying). -/
theorem c9_amended_no_probe (N : Nat) :
    RunStep.readinessProbe ∉ runSteps N
  ∧ RunStep.fixedSleep ∈ runSteps N
  ∧ RunStep.fixedSleep ∈ (runSteps N).takeWhile (fun s => s != RunStep.runWorkload) := by
  rw [runSteps]
  rcases Nat.decEq N 1 with hne | heq
  · rw [if_neg hne]
    refine ⟨by decide, by decide, by decide⟩
  · rw [if_pos heq]
    refine ⟨by decide, by decide, by decide⟩

/-- C4 counterexample: with only CPU profiling enabled, one instance whose
session collected 7 bytes, and a failing workload, the closure stops and
joins the one finisher and propagates the workload error, but reports
nothing at all: the stopped session's byte count is reported nowhere. -/
theorem c4_counterexample :
    runDiagClosure { cpuProfile := true, execTrace := false, memProfile := false }
        1 (fun _ => 7) (fun _ => 0) (fun _ => 0) (some 1) []
      = { reports := [], finishersRun := 1, result := some 1 } := by
  decide

/-- C4 amended: if the workload process exits with an error, every started
diagnostic session is still stopped (all finishers are invoked and joined in
the deferred block), and the result carries the workload's error; but among
the byte counts only the execution-trace kind's sum is still reported —
CPU-profile and heap byte counts are discarded, on failure as on success. -/
theorem c4_amended_stops_and_error (en : DiagEnabled) (numInsts : Nat)
    (cpuBytes traceBytes memBytes : Nat → Nat) (e : Nat)
    (metricReports : List (ReportKey × Nat)) :
    (runDiagClosure en numInsts cpuBytes traceBytes memBytes (some e)
        metricReports).result = some e
  ∧ (runDiagClosure en numInsts cpuBytes traceBytes memBytes (some e)
        metricReports).finishersRun
      = (mkFinishers en numInsts cpuBytes traceBytes memBytes).length
  ∧ (en.execTrace = true →
      (ReportKey.traceBytes,
        traceStopSum (mkFinishers en numInsts cpuBytes traceBytes memBytes))
        ∈ (runDiagClosure en numInsts cpuBytes traceBytes memBytes (some e)
            metricReports).reports)
  ∧ (runDiagClosure en numInsts cpuBytes traceBytes memBytes (some e)
        metricReports).reports
      = (if en.execTrace then
          [(ReportKey.traceBytes,
            traceStopSum (mkFinishers en numInsts cpuBytes traceBytes memBytes))]
        else []) := by
  refine ⟨rfl, rfl, ?_, rfl⟩
  intro ht
  simp [runDiagClosure, ht]

/-- Witness for C4's amended statement: trace collection enabled on two
instances, workload fails with error code 9. -/
theorem c4_amended_stops_and_error_witness :
    (runDiagClosure { cpuProfile := false, execTrace := true, memProfile := false }
        2 (fun _ => 0) (fun i => i + 1) (fun _ => 0) (some 9) []).result = some 9
  ∧ (runDiagClosure { cpuProfile := false, execTrace := true, memProfile := false }
        2 (fun _ => 0) (fun i => i + 1) (fun _ => 0) (some 9) []).finishersRun
      = (mkFinishers { cpuProfile := false, execTrace := true, memProfile := false }
          2 (fun _ => 0) (fun i => i + 1) (fun _ => 0)).length
  ∧ (({ cpuProfile := false, execTrace := true, memProfile := false } :
        DiagEnabled).execTrace = true →
      (ReportKey.traceBytes,
        traceStopSum (mkFinishers
          { cpuProfile := false, execTrace := true, memProfile := false }
          2 (fun _ => 0) (fun i => i + 1) (fun _ => 0)))
        ∈ (runDiagClosure { cpuProfile := false, execTrace := true, memProfile := false }
            2 (fun _ => 0) (fun i => i + 1) (fun _ => 0) (some 9) []).reports)
  ∧ (runDiagClosure { cpuProfile := false, execTrace := true, memProfile := false }
        2 (fun _ => 0) (fun i => i + 1) (fun _ => 0) (some 9) []).reports
      = (if ({ cpuProfile := false, execTrace := true, memProfile := false } :
            DiagEnabled).execTrace then
          [(ReportKey.traceBytes,
            traceStopSum (mkFinishers
              { cpuProfile := false, execTrace := true, memProfile := false }
              2 (fun _ => 0) (fun i => i + 1) (fun _ => 0)))]
        else []) :=
  c4_amended_stops_and_error
    { cpuProfile := false, execTrace := true, memProfile := false }
    2 (fun _ => 0) (fun i => i + 1) (fun _ => 0) 9 []

theorem traceStopSum_append (a b : List Finisher) :
    traceStopSum (a ++ b) = traceStopSum a + traceStopSum b := by
  induction a with
  | nil => simp [traceStopSum]
  | cons f rest ih => cases f <;> simp [traceStopSum, ih, Nat.add_assoc]

theorem traceStopSum_map_cpuStop (l : List Nat) (f : Nat → Nat) :
    traceStopSum (l.map (fun i => Finisher.cpuStop (f i))) = 0 := by
  induction l with
  | nil => rfl
  | cons a rest ih => simp [traceStopSum, ih]

theorem traceStopSum_map_memCollect (l : List Nat) (f : Nat → Nat) :
    traceStopSum (l.map (fun i => Finisher.memCollect (f i))) = 0 := by
  induction l with
  | nil => rfl
  | cons a rest ih => simp [traceStopSum, ih]

theorem traceStopSum_map_traceStop (l : List Nat) (f : Nat → Nat) :
    traceStopSum (l.map (fun i => Finisher.traceStop (f i))) = (l.map f).sum := by
  induction l with
  | nil => rfl
  | cons a rest ih => simp [traceStopSum, ih]

theorem traceStopSum_mkFinishers (en : DiagEnabled) (n : Nat)
    (cpuBytes traceBytes memBytes : Nat → Nat) :
    traceStopSum (mkFinishers en n cpuBytes traceBytes memBytes)
      = if en.execTrace then ((List.range n).map traceBytes).sum else 0 := by
  rcases hc : en.cpuProfile with h1 | h1 <;>
    rcases ht : en.execTrace with h2 | h2 <;>
      rcases hm : en.memProfile with h3 | h3 <;>
        simp [mkFinishers, hc, ht, hm, traceStopSum_append, traceStopSum,
          traceStopSum_map_cpuStop, traceStopSum_map_memCollect,
          traceStopSum_map_traceStop]

/-- C8 counterexample: with CPU profiling enabled on two instances (5 bytes
collected each) and a successful workload, the run's result contains only
the workload metric — no total byte count for the enabled CPU-profile kind
is reported. -/
theorem c8_counterexample :
    runDiagClosure { cpuProfile := true, execTrace := false, memProfile := false }
        2 (fun _ => 5) (fun _ => 0) (fun _ => 0) none [(ReportKey.workloadMetric 0, 100)]
      = { reports := [(ReportKey.workloadMetric 0, 100)], finishersRun := 2,
          result := none } := by
  decide

/-- C8 amended: only the execution-trace kind's byte total is reported.
When trace collection is enabled, the result reports — whether the workload
succeeded or failed — trace-bytes equal to the sum of the instances'
session byte counts (non-negative as a Nat); and the full report list is
exactly the workload metrics (success only) followed by that one trace
entry, so no total is ever reported for the CPU-profile or heap-snapshot
kinds. -/
theorem c8_amended_only_trace_reported (cpu mem : Bool) (numInsts : Nat)
    (cpuBytes traceBytes memBytes : Nat → Nat) (workloadErr : Option Nat)
    (metricReports : List (ReportKey × Nat)) :
    (ReportKey.traceBytes, ((List.range numInsts).map traceBytes).sum)
      ∈ (runDiagClosure { cpuProfile := cpu, execTrace := true, memProfile := mem }
          numInsts cpuBytes traceBytes memBytes workloadErr metricReports).reports
  ∧ (runDiagClosure { cpuProfile := cpu, execTrace := true, memProfile := mem }
          numInsts cpuBytes traceBytes memBytes workloadErr metricReports).reports
      = (match workloadErr with
          | none => metricReports
          | some _ => [])
        ++ [(ReportKey.traceBytes, ((List.range numInsts).map traceBytes).sum)] := by
  have hsum : traceStopSum (mkFinishers
      { cpuProfile := cpu, execTrace := true, memProfile := mem }
      numInsts cpuBytes traceBytes memBytes)
      = ((List.range numInsts).map traceBytes).sum := by
    rw [traceStopSum_mkFinishers]
    rfl
  constructor
  · unfold runDiagClosure
    simp only [if_true]
    rw [hsum]
    exact List.mem_append_right _ (List.mem_singleton.mpr rfl)
  · unfold runDiagClosure
    simp only [if_true]
    rw [hsum]

end SweetBench
